import Mathlib

/-!
# Verification of the chast chat coordinator (src/server/app.py)

A shallow embedding of the Flask/Socket.IO chat server in `src/server/app.py`.
The SQLite tables become Lean lists kept in insertion (rowid) order, the
Socket.IO room membership maintained by `join_room`/`leave_room` becomes an
explicit presence list, and each event handler becomes a function from server
state and payload to the new state together with the list of emitted events.

Werkzeug's `generate_password_hash` / `check_password_hash` are external
collaborators; the spec directs they be treated as an opaque
`verify(secret, candidate) -> bool` capability, so a hash is modelled as an
opaque wrapper of the secret and verification as equality of the wrapped
secret with the candidate.
-/

namespace Chast

/-- Opaque password hash, per the spec's opaque verifier capability:
`check_password_hash (generate_password_hash s) c` holds iff `s = c`. -/
structure Hash where
  secret : String
deriving DecidableEq, Repr

/-- werkzeug `generate_password_hash`, treated as opaque. -/
def generate_password_hash (p : String) : Hash := ⟨p⟩

/-- werkzeug `check_password_hash`, treated as the opaque verifier. -/
def check_password_hash (h : Hash) (p : String) : Bool := h.secret == p

/-- A row of the `users` table. -/
structure Account where
  username : String
  password_hash : Hash
  online_status : Bool
deriving DecidableEq, Repr

/-- A row of the `rooms` table. -/
structure Room where
  room_id : String
  room_name : String
  password_hash : Hash
  created_by : String
  created_at : String
deriving DecidableEq, Repr

/-- A row of the `messages` table; `id` is the AUTOINCREMENT primary key. -/
structure Message where
  id : Nat
  room_id : String
  sender : String
  text : String
  timestamp : String
  type : String
deriving DecidableEq, Repr

/-- The SQLite database `chat.db`: each table as a list in rowid order.
`nextMsgId` is the next AUTOINCREMENT id of the `messages` table. -/
structure DB where
  users : List Account
  rooms : List Room
  messages : List Message
  nextMsgId : Nat
deriving DecidableEq, Repr

/-- The database produced by `init_db` on a fresh file (AUTOINCREMENT starts at 1). -/
def initDB : DB := ⟨[], [], [], 1⟩

/-- The query `SELECT ... FROM users WHERE username=?` (username is UNIQUE). -/
def findAccount (db : DB) (u : String) : Option Account :=
  db.users.find? (·.username == u)

/-- The query `SELECT ... FROM rooms WHERE room_id=?` (room_id is UNIQUE). -/
def findRoom (db : DB) (r : String) : Option Room :=
  db.rooms.find? (·.room_id == r)

/-- Python truthiness of an optional string payload field:
`not x` is true when the field is missing or the empty string. -/
def truthy : Option String → Bool
  | none => false
  | some s => s != ""

/-- Helper `room_exists_and_password_ok` (app.py lines 61-76): `(True, "")` when the
room exists and the password verifies, otherwise `(False, error_message)`. -/
def room_exists_and_password_ok (db : DB) (room_id password : String) : Bool × String :=
  match findRoom db room_id with
  | none => (false, "Room not found")
  | some room =>
    if check_password_hash room.password_hash password then (true, "")
    else (false, "Incorrect password")

/-- Result of an HTTP route: the new database, the `success` flag and the
`message`/`error` string of the JSON reply. -/
structure ApiResult where
  db : DB
  success : Bool
  info : String
deriving DecidableEq, Repr

/-- Route `POST /create_room` (app.py lines 117-151). `room_name` defaults to
`room_id` and `created_by` to `"unknown"` when absent; requires a truthy
`room_id` and a present (possibly empty) `password`; inserting a duplicate
`room_id` raises `IntegrityError`. -/
def create_room (db : DB) (room_id room_name password created_by : Option String)
    (created_at : String) : ApiResult :=
  if !truthy room_id || password.isNone then
    ⟨db, false, "room_id and password are required"⟩
  else
    let rid := room_id.getD ""
    let name := room_name.getD rid
    let pw := password.getD ""
    let cb := created_by.getD "unknown"
    if db.rooms.any (·.room_id == rid) then
      ⟨db, false, "Room ID already exists"⟩
    else
      ⟨{ db with rooms := db.rooms ++ [⟨rid, name, generate_password_hash pw, cb, created_at⟩] },
        true, "Room created"⟩

/-- One Socket.IO room membership entry kept by flask_socketio's
`join_room`/`leave_room`. The transport keys membership by (room, session);
the username recorded here is the one supplied by the join event that
created the entry, kept so presence per username is expressible. -/
structure PresenceEntry where
  room : String
  sid : Nat
  username : String
deriving DecidableEq, Repr

/-- Full server state: the database plus the Socket.IO room membership and
the names of files saved into the uploads folder. -/
structure ServerState where
  db : DB
  presence : List PresenceEntry
  files : List String
deriving DecidableEq, Repr

def initState : ServerState := ⟨initDB, [], []⟩

/-- Payload of an emitted Socket.IO event. The system join/left messages
carry no timestamp (app.py lines 227, 281); chat messages do. -/
inductive Payload where
  | error (msg : String)
  | message (sender text type : String) (timestamp : Option String)
  | userStatus (online_users : List String)
  | chatHistory (msgs : List (String × String × String × String))
  | typing (username : String)
deriving DecidableEq, Repr

/-- An emitted event with its delivery scope: `emit` without a room kwarg is
a unicast to the requesting session; `emit(..., room=r)` is a broadcast;
`include_self=False` excludes the sender. -/
inductive Emitted where
  | unicast (sid : Nat) (p : Payload)
  | broadcast (room : String) (p : Payload)
  | broadcastExcept (room : String) (sid : Nat) (p : Payload)
deriving DecidableEq, Repr

/-- Whether an emitted event is an error unicast or broadcast. -/
def Emitted.isError : Emitted → Bool
  | .unicast _ (.error _) => true
  | .broadcast _ (.error _) => true
  | .broadcastExcept _ _ (.error _) => true
  | _ => false

/-- Whether an emitted event is delivered to more than the requesting session. -/
def Emitted.isBroadcast : Emitted → Bool
  | .unicast _ _ => false
  | _ => true

/-- flask_socketio `join_room`: adds the session to the room; a duplicate
(room, session) membership is a no-op. -/
def join_room_sock (st : ServerState) (room : String) (sid : Nat) (username : String) :
    ServerState :=
  if st.presence.any (fun e => e.room == room && e.sid == sid) then st
  else { st with presence := st.presence ++ [⟨room, sid, username⟩] }

/-- flask_socketio `leave_room`: removes the session's membership of the room
if present; no-op otherwise. -/
def leave_room_sock (st : ServerState) (room : String) (sid : Nat) : ServerState :=
  { st with presence := st.presence.filter (fun e => !(e.room == room && e.sid == sid)) }

/-- The statement `UPDATE users SET online_status=? WHERE username=?`. -/
def setOnlineStatus (db : DB) (u : String) (b : Bool) : DB :=
  { db with users := db.users.map (fun a =>
      if a.username == u then { a with online_status := b } else a) }

/-- Helper `get_online_users` (app.py lines 284-290): the `online_users` payload is
`SELECT username FROM users WHERE online_status=1` — a global query over the
users table, with no room parameter. -/
def get_online_users (db : DB) : List String :=
  (db.users.filter (·.online_status)).map (·.username)

/-- The query `SELECT sender, text, timestamp, type FROM messages WHERE room_id=?
ORDER BY id ASC`. -/
def listMessages (db : DB) (room : String) : List Message :=
  List.insertionSort (fun a b => a.id ≤ b.id) (db.messages.filter (·.room_id == room))

/-- Projection of a message row to the chat_history item shape. -/
def histItem (m : Message) : String × String × String × String :=
  (m.sender, m.text, m.timestamp, m.type)

/-- Socket.IO `join` handler (app.py lines 193-236). Missing fields emit an
error unicast; a failed access check emits an error unicast; on success the
session joins the room, the user is set online, a system join message and the
(global) online-user list are broadcast, and the room history is unicast. -/
def handle_join (st : ServerState) (sid : Nat) (room username password : Option String) :
    ServerState × List Emitted :=
  if !truthy room || !truthy username || password.isNone then
    (st, [.unicast sid (.error "room, username and password are required for join")])
  else
    let r := room.getD ""
    let u := username.getD ""
    let p := password.getD ""
    let chk := room_exists_and_password_ok st.db r p
    if chk.1 then
      let st1 := join_room_sock st r sid u
      let st2 := { st1 with db := setOnlineStatus st1.db u true }
      (st2,
        [.broadcast r (.message "System" (u ++ " joined the chat") "text" none),
         .broadcast r (.userStatus (get_online_users st2.db)),
         .unicast sid (.chatHistory ((listMessages st2.db r).map histItem))])
    else
      (st, [.unicast sid (.error ("Cannot join room: " ++ chk.2))])

/-- Socket.IO `send_message` handler (app.py lines 238-256). Requires truthy
room and sender and a present (possibly empty) text; otherwise persists the
message and broadcasts it — there is no check of the session's join state. -/
def handle_send_message (st : ServerState) (sid : Nat) (room sender text : Option String)
    (now : String) : ServerState × List Emitted :=
  if !truthy room || !truthy sender || text.isNone then
    (st, [.unicast sid (.error "room, sender, and text are required to send a message")])
  else
    let r := room.getD ""
    let s := sender.getD ""
    let t := text.getD ""
    let msg : Message := ⟨st.db.nextMsgId, r, s, t, now, "text"⟩
    ({ st with db := { st.db with
        messages := st.db.messages ++ [msg], nextMsgId := st.db.nextMsgId + 1 } },
      [.broadcast r (.message s t "text" (some now))])

/-- Socket.IO `typing` handler (app.py lines 258-264). -/
def handle_typing (st : ServerState) (sid : Nat) (room username : Option String) :
    ServerState × List Emitted :=
  if !truthy room || !truthy username then (st, [])
  else (st, [.broadcastExcept (room.getD "") sid (.typing (username.getD ""))])

/-- Socket.IO `disconnect_user` handler (app.py lines 266-282). A truthy room
leaves the Socket.IO room; a truthy username sets the account offline; the
system left message and online-user list are broadcast only when both are
truthy. -/
def handle_disconnect (st : ServerState) (sid : Nat) (room username : Option String) :
    ServerState × List Emitted :=
  let st1 := if truthy room then leave_room_sock st (room.getD "") sid else st
  if truthy username then
    let u := username.getD ""
    let st2 := { st1 with db := setOnlineStatus st1.db u false }
    if truthy room then
      (st2,
        [.broadcast (room.getD "") (.message "System" (u ++ " left the chat") "text" none),
         .broadcast (room.getD "") (.userStatus (get_online_users st2.db))])
    else (st2, [])
  else (st1, [])

/-- Result of `POST /upload`: new state, emitted events, `success` flag, info. -/
structure UploadResult where
  st : ServerState
  emits : List Emitted
  success : Bool
  info : String
deriving DecidableEq, Repr

/-- Route `POST /upload` (app.py lines 293-330). `hasFile` models whether the
form-data carried a file part; `nowCompact` is the timestamp prefix of the
stored filename and `now` the message timestamp. The room/password check is
run only when a password field is present. -/
def upload_file (st : ServerState) (hasFile : Bool) (origFilename : String)
    (room sender password : Option String) (nowCompact now : String) : UploadResult :=
  if !hasFile then ⟨st, [], false, "No file uploaded"⟩
  else if !truthy room || !truthy sender then
    ⟨st, [], false, "room and sender are required"⟩
  else
    let r := room.getD ""
    let s := sender.getD ""
    let store : UploadResult :=
      let filename := nowCompact ++ "_" ++ origFilename
      let msg : Message := ⟨st.db.nextMsgId, r, s, filename, now, "file"⟩
      ⟨{ st with
          db := { st.db with
            messages := st.db.messages ++ [msg], nextMsgId := st.db.nextMsgId + 1 },
          files := st.files ++ [filename] },
        [.broadcast r (.message s filename "file" (some now))], true, filename⟩
    match password with
    | some p =>
      let chk := room_exists_and_password_ok st.db r p
      if chk.1 then store
      else ⟨st, [], false, "Room validation failed: " ++ chk.2⟩
    | none => store

/-! ## Friend graph

No friend-request code is present under src/; only the spec (§4.4 FriendGraph,
§3 FriendRequest/Friendship) describes it. The definitions below are therefore
modelled from the spec, as marked on each. -/

/-- Modelled from the spec: FriendRequest status, `enum{Pending, Accepted,
Rejected}` (§3); the source code for the friend subsystem is absent from src/. -/
inductive ReqStatus where
  | Pending
  | Accepted
  | Rejected
deriving DecidableEq, Repr

/-- Modelled from the spec: a FriendRequest row `{id, sender, receiver, status}`
(§3); the source code for the friend subsystem is absent from src/. -/
structure FriendRequest where
  id : Nat
  sender : String
  receiver : String
  status : ReqStatus
deriving DecidableEq, Repr

/-- Modelled from the spec: the FriendGraph store — FriendRequest rows,
Friendship pairs as stored (orientation = the accepted request's
(sender, receiver)), and the next request id; the source code for the friend
subsystem is absent from src/. -/
structure FriendGraph where
  requests : List FriendRequest
  friendships : List (String × String)
  nextReqId : Nat
deriving DecidableEq, Repr

def initFriendGraph : FriendGraph := ⟨[], [], 1⟩

/-- Result of `sendRequest`. -/
inductive SendReqResult where
  | ok (id : Nat) (fg : FriendGraph)
  | alreadyFriends
  | requestAlreadySent
deriving DecidableEq, Repr

/-- Modelled from the spec: `sendRequest(sender, receiver)` (§4.4) — fails with
`AlreadyFriends` if a Friendship exists for the pair in either orientation;
fails with `RequestAlreadySent` if a Pending request exists for the exact
ordered pair; otherwise creates a Pending FriendRequest. The source code for
the friend subsystem is absent from src/. -/
def sendRequest (fg : FriendGraph) (sender receiver : String) : SendReqResult :=
  if fg.friendships.any (fun pr =>
      (pr.1 == sender && pr.2 == receiver) || (pr.1 == receiver && pr.2 == sender)) then
    .alreadyFriends
  else if fg.requests.any (fun q =>
      q.sender == sender && q.receiver == receiver && q.status == ReqStatus.Pending) then
    .requestAlreadySent
  else
    .ok fg.nextReqId
      ⟨fg.requests ++ [⟨fg.nextReqId, sender, receiver, ReqStatus.Pending⟩],
        fg.friendships, fg.nextReqId + 1⟩

/-- Action of `respond`. -/
inductive FrAction where
  | accept
  | reject
deriving DecidableEq, Repr

/-- Result of `respond`. -/
inductive RespondResult where
  | ok (fg : FriendGraph)
  | requestNotFound
deriving DecidableEq, Repr

/-- Modelled from the spec: `respond(requestId, action)` (§4.4) — fails with
`RequestNotFound` if no such id; Accept creates a Friendship edge for the
request's (sender, receiver) and marks it Accepted; Reject marks it Rejected.
The source code for the friend subsystem is absent from src/. -/
def respond (fg : FriendGraph) (reqId : Nat) (action : FrAction) : RespondResult :=
  match fg.requests.find? (·.id == reqId) with
  | none => .requestNotFound
  | some q =>
    let newStatus := match action with
      | .accept => ReqStatus.Accepted
      | .reject => ReqStatus.Rejected
    let reqs := fg.requests.map (fun r =>
      if r.id == reqId then { r with status := newStatus } else r)
    let fr := match action with
      | .accept => fg.friendships ++ [(q.sender, q.receiver)]
      | .reject => fg.friendships
    .ok ⟨reqs, fr, fg.nextReqId⟩

/-- Modelled from the spec: `friendsOf(username)` (§4.4) — all usernames paired
with the given one across all Friendship rows, normalized to the other side
regardless of storage orientation. The source code for the friend subsystem is
absent from src/. -/
def friendsOf (fg : FriendGraph) (u : String) : List String :=
  fg.friendships.foldr (fun pr acc =>
    if pr.1 == u then pr.2 :: acc
    else if pr.2 == u then pr.1 :: acc
    else acc) []

/-! ## Derived notions used by the claims -/

/-- The room-scoped online-user set the spec describes (`onlineUsernames`):
distinct usernames with at least one presence entry in the given room. Written
from the spec's words, for comparison with `get_online_users` from the source. -/
def spec_onlineUsernames (st : ServerState) (room : String) : List String :=
  ((st.presence.filter (fun e => e.room == room)).map (·.username)).dedup

/-- Whether a `join` payload passes both the field checks and the room access
check of `handle_join`. -/
def joinAccepted (st : ServerState) (room username password : Option String) : Bool :=
  truthy room && truthy username && !password.isNone &&
    (room_exists_and_password_ok st.db (room.getD "") (password.getD "")).1

/-- One `send_message` payload together with the wall-clock timestamp the
handler reads. -/
structure SendEvent where
  room : Option String
  sender : Option String
  text : Option String
  now : String
deriving DecidableEq, Repr

/-- Run a sequence of `send_message` events, keeping the state. -/
def runSends (st : ServerState) (sid : Nat) (es : List SendEvent) : ServerState :=
  es.foldl (fun s e => (handle_send_message s sid e.room e.sender e.text e.now).1) st

/-- Whether a `send_message` payload passes `handle_send_message`'s field check. -/
def sendOk (e : SendEvent) : Bool := truthy e.room && truthy e.sender && !e.text.isNone

/-- The successful sends of a trace addressed to the given room, in order. -/
def sendsFor (r : String) (es : List SendEvent) : List SendEvent :=
  es.filter (fun e => sendOk e && (e.room.getD "" == r))

/-- Database well-formedness maintained by the AUTOINCREMENT id assignment:
message ids strictly increase along the table and stay below `nextMsgId`. -/
def DBinv (db : DB) : Prop :=
  db.messages.Pairwise (fun a b => a.id < b.id) ∧ ∀ m ∈ db.messages, m.id < db.nextMsgId

instance (db : DB) : Decidable (DBinv db) :=
  inferInstanceAs (Decidable (db.messages.Pairwise (fun a b : Message => a.id < b.id)
    ∧ ∀ m ∈ db.messages, m.id < db.nextMsgId))

/-! ## Helper lemmas -/

theorem join_room_sock_db (st : ServerState) (room : String) (sid : Nat) (u : String) :
    (join_room_sock st room sid u).db = st.db := by
  unfold join_room_sock; split <;> rfl

theorem leave_room_sock_db (st : ServerState) (room : String) (sid : Nat) :
    (leave_room_sock st room sid).db = st.db := rfl

theorem setOnlineStatus_messages (db : DB) (u : String) (b : Bool) :
    (setOnlineStatus db u b).messages = db.messages := rfl

/-- Rows whose username matches carry the written flag after the UPDATE. -/
theorem setOnlineStatus_mem (db : DB) (u : String) (b : Bool) (a : Account)
    (ha : a ∈ (setOnlineStatus db u b).users) (hu : a.username = u) :
    a.online_status = b := by
  rcases List.mem_map.1 ha with ⟨a0, _, rfl⟩
  by_cases h0 : (a0.username == u) = true
  · simp [h0]
  · simp only [h0, if_neg, Bool.false_eq_true, not_false_eq_true] at hu ⊢
    exact absurd (by simpa using hu) (by simpa using h0)

/-- A map whose function fixes every element of the list is the identity. -/
theorem map_self_of_fix {α : Type} (f : α → α) :
    ∀ l : List α, (∀ a ∈ l, f a = a) → l.map f = l
  | [], _ => rfl
  | x :: xs, h => by
    rw [List.map_cons, h x (List.mem_cons_self x xs),
      map_self_of_fix f xs (fun a ha => h a (List.mem_cons_of_mem x ha))]

/-- The UPDATE of a username present in no row leaves the table unchanged. -/
theorem setOnlineStatus_unregistered (db : DB) (u : String) (b : Bool)
    (h : db.users.all (fun a => a.username != u) = true) :
    setOnlineStatus db u b = db := by
  unfold setOnlineStatus
  rw [map_self_of_fix _ db.users (by
    intro a ha
    have hne := List.all_eq_true.1 h a ha
    simp only [bne_iff_ne, ne_eq] at hne
    simp [hne])]

/-- A successful `join` reduces to the explicit success state and emissions. -/
theorem handle_join_success (st : ServerState) (sid : Nat) (r u p : String)
    (hr : r ≠ "") (hu : u ≠ "")
    (hok : (room_exists_and_password_ok st.db r p).1 = true) :
    handle_join st sid (some r) (some u) (some p) =
      ({ join_room_sock st r sid u with db := setOnlineStatus st.db u true },
       [.broadcast r (.message "System" (u ++ " joined the chat") "text" none),
        .broadcast r (.userStatus (get_online_users (setOnlineStatus st.db u true))),
        .unicast sid (.chatHistory ((listMessages (setOnlineStatus st.db u true) r).map histItem))]) := by
  unfold handle_join
  simp only [truthy, Option.isNone_some, Option.getD_some]
  rw [if_neg (by simp [hr, hu]), if_pos hok]
  rw [join_room_sock_db]

/-! ## Claim theorems -/

/-- C1 counterexample: in a state where session 7 has no presence in any room
(it is not in the Joined state for room "r"), a send_message is nevertheless
persisted to the messages table and broadcast to the room, and no error is
emitted — refuting the claim that such a send is rejected with Error{NotJoined}
with nothing persisted or broadcast. -/
theorem send_message_not_joined_cex :
    (handle_send_message ⟨⟨[], [⟨"r", "r", ⟨""⟩, "alice", "t"⟩], [], 1⟩, [], []⟩
        7 (some "r") (some "alice") (some "hi") "ts").1.db.messages
      = [⟨1, "r", "alice", "hi", "ts", "text"⟩] ∧
    (handle_send_message ⟨⟨[], [⟨"r", "r", ⟨""⟩, "alice", "t"⟩], [], 1⟩, [], []⟩
        7 (some "r") (some "alice") (some "hi") "ts").2
      = [.broadcast "r" (.message "alice" "hi" "text" (some "ts"))] :=
  ⟨rfl, rfl⟩

/-- C1 (amended): handle_send_message performs no join-state check at all.
Whenever room and sender are non-empty and text is present, the message is
persisted and broadcast to the room — for every server state, in particular
states where the session has no presence in the target room — and the presence
registry is untouched. Only a payload missing a field is rejected. -/
theorem send_message_no_join_check (st : ServerState) (sid : Nat) (r s t now : String)
    (hr : r ≠ "") (hs : s ≠ "") :
    (handle_send_message st sid (some r) (some s) (some t) now).1.db.messages
      = st.db.messages ++ [⟨st.db.nextMsgId, r, s, t, now, "text"⟩] ∧
    (handle_send_message st sid (some r) (some s) (some t) now).2
      = [.broadcast r (.message s t "text" (some now))] ∧
    (handle_send_message st sid (some r) (some s) (some t) now).1.presence
      = st.presence := by
  unfold handle_send_message
  rw [if_neg (by simp [truthy, hr, hs])]
  exact ⟨rfl, rfl, rfl⟩

/-- Witness for C1's amended theorem at a concrete not-joined session. -/
theorem send_message_no_join_check_witness :
    ("r" : String) ≠ "" ∧ ("alice" : String) ≠ "" ∧
    ((handle_send_message initState 7 (some "r") (some "alice") (some "hi") "ts").1.db.messages
        = initState.db.messages ++ [⟨1, "r", "alice", "hi", "ts", "text"⟩] ∧
      (handle_send_message initState 7 (some "r") (some "alice") (some "hi") "ts").2
        = [.broadcast "r" (.message "alice" "hi" "text" (some "ts"))] ∧
      (handle_send_message initState 7 (some "r") (some "alice") (some "hi") "ts").1.presence
        = initState.presence) :=
  ⟨by decide, by decide,
    send_message_no_join_check initState 7 "r" "alice" "hi" "ts" (by decide) (by decide)⟩

/-- C4 counterexample: create_room refuses an absent password outright, and a
room created with the empty-string password gets a real hash of "", so
authorize then fails for the supplied password "x" — refuting the claim that a
room created with no password accepts every password value. -/
theorem room_no_password_cex :
    (create_room initDB (some "r") none (some "") (some "alice") "t").success = true ∧
    room_exists_and_password_ok
        (create_room initDB (some "r") none (some "") (some "alice") "t").db "r" "x"
      = (false, "Incorrect password") ∧
    (create_room initDB (some "r") none none (some "alice") "t").success = false ∧
    (create_room initDB (some "r") none none (some "alice") "t").db = initDB :=
  ⟨rfl, rfl, rfl, rfl⟩

/-- C4 (amended): create_room requires a present password (an absent password
is rejected with an error and no room is created), and every created room
stores a real hash of the supplied password, possibly the hash of "". On the
created room, authorize succeeds exactly when the supplied password equals the
creation password; in particular, a room created with a non-empty password
always rejects "" with "Incorrect password". -/
theorem authorize_iff_creation_password (db : DB) (rid : String) (rn cb : Option String)
    (p q ca : String) (hr : rid ≠ "")
    (hfresh : db.rooms.all (fun room => room.room_id != rid) = true) :
    (create_room db none rn none cb ca).success = false ∧
    (create_room db none rn none cb ca).db = db ∧
    (create_room db (some rid) rn (some p) cb ca).success = true ∧
    room_exists_and_password_ok (create_room db (some rid) rn (some p) cb ca).db rid q
      = (if q = p then (true, "") else (false, "Incorrect password")) := by
  refine ⟨rfl, rfl, ?_, ?_⟩
  · unfold create_room
    rw [if_neg (by simp [truthy, hr])]
    rw [if_neg (by
      simp only [List.any_eq_true, not_exists, not_and]
      intro room hmem
      have hne := List.all_eq_true.1 hfresh room hmem
      simpa using hne)]
  · unfold create_room
    rw [if_neg (by simp [truthy, hr])]
    rw [if_neg (by
      simp only [List.any_eq_true, not_exists, not_and]
      intro room hmem
      have hne := List.all_eq_true.1 hfresh room hmem
      simpa using hne)]
    unfold room_exists_and_password_ok findRoom
    rw [List.find?_append]
    rw [List.find?_eq_none.2 (by
      intro room hmem
      have hne := List.all_eq_true.1 hfresh room hmem
      simpa using hne)]
    simp only [Option.none_or, List.find?_cons, Option.getD_some, beq_self_eq_true, cond_true]
    unfold check_password_hash generate_password_hash
    by_cases hqp : q = p
    · subst hqp; simp
    · simp [hqp, Ne.symm hqp]

/-- Witness for C4's amended theorem on a fresh database. -/
theorem authorize_iff_creation_password_witness :
    ("r1" : String) ≠ "" ∧
    initDB.rooms.all (fun room => room.room_id != "r1") = true ∧
    ((create_room initDB none none none (some "a") "t").success = false ∧
      (create_room initDB none none none (some "a") "t").db = initDB ∧
      (create_room initDB (some "r1") none (some "secret") (some "a") "t").success = true ∧
      room_exists_and_password_ok
          (create_room initDB (some "r1") none (some "secret") (some "a") "t").db "r1" ""
        = (if ("" : String) = "secret" then (true, "") else (false, "Incorrect password"))) :=
  ⟨by decide, by decide,
    authorize_iff_creation_password initDB "r1" none (some "a") "secret" "" "t"
      (by decide) (by decide)⟩

/-- C7: whenever a join is not accepted — a required field is missing, the room
does not exist, or the password is wrong — the handler leaves the entire server
state unchanged (so the session does not become a presence member of the room)
and emits exactly one event: an error unicast to the requesting session. In
particular nothing is broadcast. -/
theorem join_failure_isolated (st : ServerState) (sid : Nat)
    (room username password : Option String)
    (h : joinAccepted st room username password = false) :
    (handle_join st sid room username password).1 = st ∧
    (∃ msg, (handle_join st sid room username password).2
      = [.unicast sid (.error msg)]) ∧
    ∀ e ∈ (handle_join st sid room username password).2, e.isBroadcast = false := by
  unfold joinAccepted at h
  unfold handle_join
  by_cases hf : (!truthy room || !truthy username || password.isNone) = true
  · rw [if_pos hf]
    exact ⟨rfl, ⟨_, rfl⟩, by intro e he; simp only [List.mem_singleton] at he; subst he; rfl⟩
  · rw [if_neg hf]
    have hf' : (!truthy room || !truthy username || password.isNone) = false :=
      eq_false_of_ne_true hf
    simp only [Bool.or_eq_false_iff, Bool.not_eq_false'] at hf'
    simp only [hf'.1.1, hf'.1.2, hf'.2, Bool.true_and, Bool.not_false, Bool.and_true] at h
    rw [if_neg (by simp [h])]
    exact ⟨rfl, ⟨_, rfl⟩, by intro e he; simp only [List.mem_singleton] at he; subst he; rfl⟩

/-- Witness for C7 at a concrete wrong-password join. -/
theorem join_failure_isolated_witness :
    joinAccepted ⟨⟨[], [⟨"r", "r", ⟨"secret"⟩, "a", "t"⟩], [], 1⟩, [], []⟩
        (some "r") (some "bob") (some "wrong") = false ∧
    ((handle_join ⟨⟨[], [⟨"r", "r", ⟨"secret"⟩, "a", "t"⟩], [], 1⟩, [], []⟩
        9 (some "r") (some "bob") (some "wrong")).1
      = ⟨⟨[], [⟨"r", "r", ⟨"secret"⟩, "a", "t"⟩], [], 1⟩, [], []⟩ ∧
      (∃ msg, (handle_join ⟨⟨[], [⟨"r", "r", ⟨"secret"⟩, "a", "t"⟩], [], 1⟩, [], []⟩
          9 (some "r") (some "bob") (some "wrong")).2 = [.unicast 9 (.error msg)]) ∧
      ∀ e ∈ (handle_join ⟨⟨[], [⟨"r", "r", ⟨"secret"⟩, "a", "t"⟩], [], 1⟩, [], []⟩
          9 (some "r") (some "bob") (some "wrong")).2, e.isBroadcast = false) :=
  ⟨by decide,
    join_failure_isolated ⟨⟨[], [⟨"r", "r", ⟨"secret"⟩, "a", "t"⟩], [], 1⟩, [], []⟩
      9 (some "r") (some "bob") (some "wrong") (by decide)⟩

/-- C9: an upload carrying room and sender but no password field skips the
room/password validation entirely: for every server state — including states
whose rooms table does not contain the target room at all — the file is stored,
a File-kind message is appended to the messages table, and the message is
broadcast to the room, with success reported. -/
theorem upload_no_password_skips_check (st : ServerState) (r s orig nowC now : String)
    (hr : r ≠ "") (hs : s ≠ "") :
    (upload_file st true orig (some r) (some s) none nowC now).success = true ∧
    (upload_file st true orig (some r) (some s) none nowC now).st.files
      = st.files ++ [nowC ++ "_" ++ orig] ∧
    (upload_file st true orig (some r) (some s) none nowC now).st.db.messages
      = st.db.messages ++ [⟨st.db.nextMsgId, r, s, nowC ++ "_" ++ orig, now, "file"⟩] ∧
    (upload_file st true orig (some r) (some s) none nowC now).emits
      = [.broadcast r (.message s (nowC ++ "_" ++ orig) "file" (some now))] := by
  unfold upload_file
  rw [if_neg (by simp), if_neg (by simp [truthy, hr, hs])]
  exact ⟨rfl, rfl, rfl, rfl⟩

/-- The state left by `disconnect_user`: a truthy room filters the session out
of that room's presence; a truthy username writes the offline flag. -/
theorem handle_disconnect_fst (st : ServerState) (sid : Nat) (room username : Option String) :
    (handle_disconnect st sid room username).1 =
      { st with
        presence := if truthy room then
            st.presence.filter (fun e => !(e.room == room.getD "" && e.sid == sid))
          else st.presence,
        db := if truthy username then setOnlineStatus st.db (username.getD "") false
          else st.db } := by
  unfold handle_disconnect leave_room_sock
  by_cases hu : truthy username = true <;> by_cases hr : truthy room = true <;>
    simp [hu, hr]

/-- The events emitted by `disconnect_user`: the system left message and the
refreshed global online list when both fields are truthy, nothing otherwise. -/
theorem handle_disconnect_snd (st : ServerState) (sid : Nat) (room username : Option String) :
    (handle_disconnect st sid room username).2 =
      if truthy room && truthy username then
        [.broadcast (room.getD "") (.message "System"
            ((username.getD "") ++ " left the chat") "text" none),
         .broadcast (room.getD "")
            (.userStatus (get_online_users (setOnlineStatus st.db (username.getD "") false)))]
      else [] := by
  unfold handle_disconnect leave_room_sock
  by_cases hu : truthy username = true <;> by_cases hr : truthy room = true <;>
    simp [hu, hr]

/-- C10: handle_join never verifies the username against the users table. With
an existing room and matching password the join goes through for every state —
in particular for a username registered in no account row: the three success
events are emitted, the session gains presence, the online-status UPDATE leaves
the users table unchanged, and the username is absent from the broadcast
online_users payload. -/
theorem join_unregistered_succeeds (st : ServerState) (sid : Nat) (r u p : String)
    (hr : r ≠ "") (hu : u ≠ "")
    (hok : (room_exists_and_password_ok st.db r p).1 = true)
    (hunreg : st.db.users.all (fun a => a.username != u) = true) :
    (handle_join st sid (some r) (some u) (some p)).1.db = st.db ∧
    (handle_join st sid (some r) (some u) (some p)).1.presence
      = (join_room_sock st r sid u).presence ∧
    (handle_join st sid (some r) (some u) (some p)).2
      = [.broadcast r (.message "System" (u ++ " joined the chat") "text" none),
         .broadcast r (.userStatus (get_online_users st.db)),
         .unicast sid (.chatHistory ((listMessages st.db r).map histItem))] ∧
    u ∉ get_online_users st.db := by
  have hset := setOnlineStatus_unregistered st.db u true hunreg
  rw [handle_join_success st sid r u p hr hu hok]
  refine ⟨hset, rfl, by rw [hset], ?_⟩
  intro hmem
  unfold get_online_users at hmem
  rcases List.mem_map.1 hmem with ⟨a, ha, hau⟩
  have hne := List.all_eq_true.1 hunreg a (List.mem_filter.1 ha).1
  rw [hau] at hne
  simp at hne

/-- Witness for C10: in a room with the empty password and an empty users
table, the unregistered username "mallory" joins successfully. -/
theorem join_unregistered_succeeds_witness :
    ("r" : String) ≠ "" ∧ ("mallory" : String) ≠ "" ∧
    (room_exists_and_password_ok
        (⟨⟨[], [⟨"r", "r", ⟨""⟩, "a", "t"⟩], [], 1⟩, [], []⟩ : ServerState).db "r" "").1 = true ∧
    (⟨⟨[], [⟨"r", "r", ⟨""⟩, "a", "t"⟩], [], 1⟩, [], []⟩ : ServerState).db.users.all
      (fun a => a.username != "mallory") = true ∧
    ((handle_join ⟨⟨[], [⟨"r", "r", ⟨""⟩, "a", "t"⟩], [], 1⟩, [], []⟩
          3 (some "r") (some "mallory") (some "")).1.db
        = (⟨⟨[], [⟨"r", "r", ⟨""⟩, "a", "t"⟩], [], 1⟩, [], []⟩ : ServerState).db ∧
      (handle_join ⟨⟨[], [⟨"r", "r", ⟨""⟩, "a", "t"⟩], [], 1⟩, [], []⟩
          3 (some "r") (some "mallory") (some "")).1.presence
        = (join_room_sock ⟨⟨[], [⟨"r", "r", ⟨""⟩, "a", "t"⟩], [], 1⟩, [], []⟩ "r" 3 "mallory").presence ∧
      (handle_join ⟨⟨[], [⟨"r", "r", ⟨""⟩, "a", "t"⟩], [], 1⟩, [], []⟩
          3 (some "r") (some "mallory") (some "")).2
        = [.broadcast "r" (.message "System" ("mallory" ++ " joined the chat") "text" none),
           .broadcast "r" (.userStatus (get_online_users
              (⟨⟨[], [⟨"r", "r", ⟨""⟩, "a", "t"⟩], [], 1⟩, [], []⟩ : ServerState).db)),
           .unicast 3 (.chatHistory ((listMessages
              (⟨⟨[], [⟨"r", "r", ⟨""⟩, "a", "t"⟩], [], 1⟩, [], []⟩ : ServerState).db "r").map histItem))] ∧
      "mallory" ∉ get_online_users
        (⟨⟨[], [⟨"r", "r", ⟨""⟩, "a", "t"⟩], [], 1⟩, [], []⟩ : ServerState).db) :=
  ⟨by decide, by decide, by decide, by decide,
    join_unregistered_succeeds ⟨⟨[], [⟨"r", "r", ⟨""⟩, "a", "t"⟩], [], 1⟩, [], []⟩
      3 "r" "mallory" "" (by decide) (by decide) (by decide) (by decide)⟩

/-- Two registered users and two passwordless-in-the-spec-sense rooms (created
with password ""): the base of the C2/C3 counterexample scenarios. -/
def cexDB : DB :=
  ⟨[⟨"alice", ⟨"pw1"⟩, false⟩, ⟨"bob", ⟨"pw2"⟩, false⟩],
   [⟨"r1", "r1", ⟨""⟩, "a", "t"⟩, ⟨"r2", "r2", ⟨""⟩, "a", "t"⟩], [], 1⟩

/-- alice joins room r1 from session 1. -/
def cexJoin1 : ServerState × List Emitted :=
  handle_join ⟨cexDB, [], []⟩ 1 (some "r1") (some "alice") (some "")

/-- then bob joins room r2 from session 2. -/
def cexJoin2 : ServerState × List Emitted :=
  handle_join cexJoin1.1 2 (some "r2") (some "bob") (some "")

/-- C2 counterexample: after alice joins r1 and bob joins r2, the user_status
payload broadcast to r2 for bob's join is ["alice", "bob"] — the global online
list — while the set of usernames with a presence entry in r2 is just
["bob"]; the payload is not the room-scoped set the claim states. -/
theorem user_status_not_room_scoped_cex :
    cexJoin2.2 = [.broadcast "r2" (.message "System" "bob joined the chat" "text" none),
                  .broadcast "r2" (.userStatus ["alice", "bob"]),
                  .unicast 2 (.chatHistory [])] ∧
    spec_onlineUsernames cexJoin2.1 "r2" = ["bob"] :=
  ⟨rfl, rfl⟩

/-- C2 (amended): the user_status payload broadcast on a successful join and on
a disconnect carrying both fields is get_online_users of the updated database —
the global list of usernames whose users-table online_status flag is set,
computed by a query that takes no room parameter and never consults the
presence registry. -/
theorem user_status_broadcast_is_global (st : ServerState) (sid : Nat) (r u p : String)
    (hr : r ≠ "") (hu : u ≠ "")
    (hok : (room_exists_and_password_ok st.db r p).1 = true) :
    (handle_join st sid (some r) (some u) (some p)).2
      = [.broadcast r (.message "System" (u ++ " joined the chat") "text" none),
         .broadcast r (.userStatus (get_online_users (setOnlineStatus st.db u true))),
         .unicast sid (.chatHistory
            ((listMessages (setOnlineStatus st.db u true) r).map histItem))] ∧
    (handle_disconnect st sid (some r) (some u)).2
      = [.broadcast r (.message "System" (u ++ " left the chat") "text" none),
         .broadcast r (.userStatus (get_online_users (setOnlineStatus st.db u false)))] := by
  constructor
  · rw [handle_join_success st sid r u p hr hu hok]
  · rw [handle_disconnect_snd]
    rw [if_pos (by simp [truthy, hr, hu])]
    rfl

/-- Witness for C2's amended theorem on the concrete scenario database. -/
theorem user_status_broadcast_is_global_witness :
    ("r1" : String) ≠ "" ∧ ("alice" : String) ≠ "" ∧
    (room_exists_and_password_ok cexDB "r1" "").1 = true ∧
    ((handle_join ⟨cexDB, [], []⟩ 1 (some "r1") (some "alice") (some "")).2
        = [.broadcast "r1" (.message "System" ("alice" ++ " joined the chat") "text" none),
           .broadcast "r1" (.userStatus (get_online_users (setOnlineStatus cexDB "alice" true))),
           .unicast 1 (.chatHistory
              ((listMessages (setOnlineStatus cexDB "alice" true) "r1").map histItem))] ∧
      (handle_disconnect ⟨cexDB, [], []⟩ 1 (some "r1") (some "alice")).2
        = [.broadcast "r1" (.message "System" ("alice" ++ " left the chat") "text" none),
           .broadcast "r1" (.userStatus (get_online_users (setOnlineStatus cexDB "alice" false)))]) :=
  ⟨by decide, by decide, by decide,
    user_status_broadcast_is_global ⟨cexDB, [], []⟩ 1 "r1" "alice" ""
      (by decide) (by decide) (by decide)⟩

/-- alice also joins r1 from a second session. -/
def cexJoinSecondSid : ServerState × List Emitted :=
  handle_join cexJoin1.1 2 (some "r1") (some "alice") (some "")

/-- alice disconnects her first session from r1, the second stays. -/
def cexDisc : ServerState × List Emitted :=
  handle_disconnect cexJoinSecondSid.1 1 (some "r1") (some "alice")

/-- C3 counterexample: alice is joined to r1 from sessions 1 and 2; after
disconnecting session 1, a presence entry of alice's (session 2 in r1) still
exists, yet the persisted Account online flag of alice is false — refuting the
claim that after every disconnect the flag is true iff at least one presence
entry remains. -/
theorem disconnect_one_of_two_sessions_cex :
    cexDisc.1.presence = [⟨"r1", 2, "alice"⟩] ∧
    findAccount cexDisc.1.db "alice" = some ⟨"alice", ⟨"pw1"⟩, false⟩ :=
  ⟨rfl, rfl⟩

/-- C3 (amended): a disconnect_user event carrying a username writes the
offline flag for that username unconditionally — the flag is never recomputed
from the presence registry — while presence entries of every other session
survive the disconnect. So after disconnecting one of several concurrent
sessions of a user, the user is marked offline although still present. -/
theorem disconnect_sets_offline_unconditionally (st : ServerState) (sid : Nat)
    (room : Option String) (u : String) (hu : u ≠ "") :
    (∀ a ∈ (handle_disconnect st sid room (some u)).1.db.users,
        a.username = u → a.online_status = false) ∧
    (∀ e ∈ st.presence, e.sid ≠ sid →
        e ∈ (handle_disconnect st sid room (some u)).1.presence) := by
  rw [handle_disconnect_fst]
  have htu : truthy (some u) = true := by simp [truthy, hu]
  constructor
  · intro a ha hau
    rw [if_pos htu] at ha
    exact setOnlineStatus_mem st.db u false a ha hau
  · intro e he hne
    by_cases hroom : truthy room = true
    · rw [if_pos hroom]
      exact List.mem_filter.2 ⟨he, by simp [hne]⟩
    · rw [if_neg hroom]
      exact he

/-- Witness for C3's amended theorem on the two-session scenario. -/
theorem disconnect_sets_offline_unconditionally_witness :
    ("alice" : String) ≠ "" ∧
    ((∀ a ∈ (handle_disconnect cexJoinSecondSid.1 1 (some "r1") (some "alice")).1.db.users,
        a.username = "alice" → a.online_status = false) ∧
      (∀ e ∈ cexJoinSecondSid.1.presence, e.sid ≠ 1 →
        e ∈ (handle_disconnect cexJoinSecondSid.1 1 (some "r1") (some "alice")).1.presence)) :=
  ⟨by decide,
    disconnect_sets_offline_unconditionally cexJoinSecondSid.1 1 (some "r1") "alice"
      (by decide)⟩

/-- A state with alice registered and online, used against C8. -/
def cexOnline : ServerState := ⟨⟨[⟨"alice", ⟨"pw1"⟩, true⟩], [], [], 1⟩, [], []⟩

/-- C8 counterexample: a disconnect_user payload carrying only the username
emits nothing, yet it is not a no-op on observable state — alice's persisted
online flag flips from true to false. -/
theorem disconnect_incomplete_payload_cex :
    (handle_disconnect cexOnline 1 none (some "alice")).2 = [] ∧
    (handle_disconnect cexOnline 1 none (some "alice")).1.db ≠ cexOnline.db ∧
    (handle_disconnect cexOnline 1 none (some "alice")).1.db.users
      = [⟨"alice", ⟨"pw1"⟩, false⟩] := by
  refine ⟨rfl, ?_, rfl⟩
  decide

/-- C8 (amended): the system left broadcast and the refreshed online-users
broadcast are emitted iff both room and username are truthy, and no error is
ever emitted; but a partial payload is a silent no-op only on emissions, not on
state — a truthy username alone still clears that account's online flag, and a
truthy room alone still removes the session from the room's presence. Only a
payload with neither field leaves the state unchanged. -/
theorem disconnect_broadcast_iff_both (st : ServerState) (sid : Nat)
    (room username : Option String) :
    ((handle_disconnect st sid room username).2 ≠ []
        ↔ (truthy room = true ∧ truthy username = true)) ∧
    (∀ e ∈ (handle_disconnect st sid room username).2, e.isError = false) ∧
    (truthy username = false → (handle_disconnect st sid room username).1.db = st.db) ∧
    (truthy room = false →
        (handle_disconnect st sid room username).1.presence = st.presence) ∧
    (truthy username = true → ∀ a ∈ (handle_disconnect st sid room username).1.db.users,
        a.username = username.getD "" → a.online_status = false) ∧
    (truthy room = true → (handle_disconnect st sid room username).1.presence
        = st.presence.filter (fun e => !(e.room == room.getD "" && e.sid == sid))) := by
  rw [handle_disconnect_fst, handle_disconnect_snd]
  refine ⟨?_, ?_, ?_, ?_, ?_, ?_⟩
  · by_cases hr : truthy room = true <;> by_cases hu : truthy username = true <;>
      simp [hr, hu]
  · intro e he
    by_cases hb : (truthy room && truthy username) = true
    · rw [if_pos hb] at he
      rcases List.mem_cons.1 he with rfl | he2
      · rfl
      · rcases List.mem_cons.1 he2 with rfl | he3
        · rfl
        · exact absurd he3 (List.not_mem_nil e)
    · rw [if_neg hb] at he
      exact absurd he (List.not_mem_nil e)
  · intro hu
    simp [hu]
  · intro hr
    simp [hr]
  · intro hu a ha hau
    rw [if_pos hu] at ha
    exact setOnlineStatus_mem st.db (username.getD "") false a ha hau
  · intro hr
    rw [if_pos hr]

/-- Witness for C8's amended theorem on the username-only payload. -/
theorem disconnect_broadcast_iff_both_witness :
    (((handle_disconnect cexOnline 1 none (some "alice")).2 ≠ []
        ↔ (truthy (none : Option String) = true ∧ truthy (some "alice") = true)) ∧
      (∀ e ∈ (handle_disconnect cexOnline 1 none (some "alice")).2, e.isError = false) ∧
      (truthy (some "alice") = false →
        (handle_disconnect cexOnline 1 none (some "alice")).1.db = cexOnline.db) ∧
      (truthy (none : Option String) = false →
        (handle_disconnect cexOnline 1 none (some "alice")).1.presence = cexOnline.presence) ∧
      (truthy (some "alice") = true →
        ∀ a ∈ (handle_disconnect cexOnline 1 none (some "alice")).1.db.users,
          a.username = (some "alice").getD "" → a.online_status = false) ∧
      (truthy (none : Option String) = true →
        (handle_disconnect cexOnline 1 none (some "alice")).1.presence
          = cexOnline.presence.filter
              (fun e => !(e.room == (none : Option String).getD "" && e.sid == 1)))) :=
  disconnect_broadcast_iff_both cexOnline 1 none (some "alice")

/-- Witness for C9 on a state whose rooms table is empty, so no room named
"ghost" exists, yet the upload succeeds. -/
theorem upload_no_password_skips_check_witness :
    ("ghost" : String) ≠ "" ∧ ("bob" : String) ≠ "" ∧
    findRoom initState.db "ghost" = none ∧
    ((upload_file initState true "a.png" (some "ghost") (some "bob") none "X" "Y").success
        = true ∧
      (upload_file initState true "a.png" (some "ghost") (some "bob") none "X" "Y").st.files
        = initState.files ++ ["X" ++ "_" ++ "a.png"] ∧
      (upload_file initState true "a.png" (some "ghost") (some "bob") none "X" "Y").st.db.messages
        = initState.db.messages ++ [⟨1, "ghost", "bob", "X" ++ "_" ++ "a.png", "Y", "file"⟩] ∧
      (upload_file initState true "a.png" (some "ghost") (some "bob") none "X" "Y").emits
        = [.broadcast "ghost" (.message "bob" ("X" ++ "_" ++ "a.png") "file" (some "Y"))]) :=
  ⟨by decide, by decide, rfl,
    upload_no_password_skips_check initState "ghost" "bob" "a.png" "X" "Y"
      (by decide) (by decide)⟩

/-! ## Friend-graph lemmas and C5 -/

/-- An element of the accumulator survives the `friendsOf` fold. -/
theorem mem_friendsFold_of_mem_init (u x : String) (fr : List (String × String))
    (init : List String) (hx : x ∈ init) :
    x ∈ fr.foldr (fun pr acc =>
      if pr.1 == u then pr.2 :: acc
      else if pr.2 == u then pr.1 :: acc
      else acc) init := by
  induction fr with
  | nil => exact hx
  | cons pr rest ih =>
    simp only [List.foldr_cons]
    split
    · exact List.mem_cons_of_mem _ ih
    · split
      · exact List.mem_cons_of_mem _ ih
      · exact ih

/-- C5: for every pair of users, after sendRequest(A,B) succeeds and the
resulting request is accepted, friendsOf(A) contains B, friendsOf(B) contains
A, and a subsequent sendRequest(A,B) fails with AlreadyFriends. The hypothesis
on request ids is the freshness invariant the store's monotonic id assignment
maintains. (The friend subsystem's code is absent from src/; the definitions
are modelled from the spec.) -/
theorem friend_accept_mutual (fg : FriendGraph) (A B : String) (i : Nat) (fg1 : FriendGraph)
    (hids : ∀ q ∈ fg.requests, q.id < fg.nextReqId)
    (hsend : sendRequest fg A B = .ok i fg1) :
    ∃ fg2, respond fg1 i .accept = .ok fg2 ∧
      B ∈ friendsOf fg2 A ∧ A ∈ friendsOf fg2 B ∧
      sendRequest fg2 A B = .alreadyFriends := by
  unfold sendRequest at hsend
  by_cases h1 : (fg.friendships.any fun pr =>
      (pr.1 == A && pr.2 == B) || (pr.1 == B && pr.2 == A)) = true
  · rw [if_pos h1] at hsend; exact absurd hsend (by simp)
  · rw [if_neg h1] at hsend
    by_cases h2 : (fg.requests.any fun q =>
        q.sender == A && q.receiver == B && q.status == ReqStatus.Pending) = true
    · rw [if_pos h2] at hsend; exact absurd hsend (by simp)
    · rw [if_neg h2] at hsend
      injection hsend with hi hfg
      subst hi
      subst hfg
      have hfind : List.find? (fun q => q.id == fg.nextReqId)
          (fg.requests ++ ([⟨fg.nextReqId, A, B, ReqStatus.Pending⟩] : List FriendRequest))
          = some ⟨fg.nextReqId, A, B, ReqStatus.Pending⟩ := by
        rw [List.find?_append, List.find?_eq_none.2 (by
          intro q hq
          have hlt := hids q hq
          simp [Nat.ne_of_lt hlt])]
        simp
      refine ⟨⟨(fg.requests ++ ([⟨fg.nextReqId, A, B, ReqStatus.Pending⟩] : List FriendRequest)).map
            (fun q => if q.id == fg.nextReqId then { q with status := ReqStatus.Accepted }
              else q),
          fg.friendships ++ [(A, B)], fg.nextReqId + 1⟩, ?_, ?_, ?_, ?_⟩
      · unfold respond
        rw [hfind]
      · show B ∈ friendsOf ⟨_, fg.friendships ++ [(A, B)], _⟩ A
        unfold friendsOf
        rw [List.foldr_append]
        exact mem_friendsFold_of_mem_init A B fg.friendships _ (by simp)
      · show A ∈ friendsOf ⟨_, fg.friendships ++ [(A, B)], _⟩ B
        unfold friendsOf
        rw [List.foldr_append]
        refine mem_friendsFold_of_mem_init B A fg.friendships _ ?_
        simp only [List.foldr_cons, List.foldr_nil]
        by_cases hab : (A == B) = true
        · rw [if_pos hab]
          simp only [beq_iff_eq] at hab
          simp [hab]
        · rw [if_neg hab]
          simp
      · unfold sendRequest
        rw [if_pos (by simp [List.any_append])]

/-- Witness for C5 on a fresh friend graph, alice → bob. -/
theorem friend_accept_mutual_witness :
    (∀ q ∈ initFriendGraph.requests, q.id < initFriendGraph.nextReqId) ∧
    sendRequest initFriendGraph "alice" "bob"
      = .ok 1 ⟨[⟨1, "alice", "bob", ReqStatus.Pending⟩], [], 2⟩ ∧
    (∃ fg2, respond ⟨[⟨1, "alice", "bob", ReqStatus.Pending⟩], [], 2⟩ 1 .accept = .ok fg2 ∧
      "bob" ∈ friendsOf fg2 "alice" ∧ "alice" ∈ friendsOf fg2 "bob" ∧
      sendRequest fg2 "alice" "bob" = .alreadyFriends) :=
  ⟨by decide, by decide,
    friend_accept_mutual initFriendGraph "alice" "bob" 1
      ⟨[⟨1, "alice", "bob", ReqStatus.Pending⟩], [], 2⟩ (by decide) (by decide)⟩

/-! ## Message-order lemmas and C6 -/

/-- Under the id invariant the ORDER BY id ASC replay is just the filtered
table in insertion order. -/
theorem listMessages_eq_filter (db : DB) (r : String)
    (h : db.messages.Pairwise (fun a b => a.id < b.id)) :
    listMessages db r = db.messages.filter (·.room_id == r) := by
  unfold listMessages
  apply List.Sorted.insertionSort_eq
  have h2 : (db.messages.filter (·.room_id == r)).Pairwise (fun a b => a.id < b.id) :=
    h.filter _
  exact h2.imp (fun hab => Nat.le_of_lt hab)

/-- Appending a message under the fresh AUTOINCREMENT id keeps the invariant. -/
theorem DBinv_append (db : DB) (r s t now ty : String) (h : DBinv db) :
    DBinv { db with
      messages := db.messages ++ [⟨db.nextMsgId, r, s, t, now, ty⟩],
      nextMsgId := db.nextMsgId + 1 } := by
  obtain ⟨hp, hlt⟩ := h
  constructor
  · rw [List.pairwise_append]
    refine ⟨hp, List.pairwise_singleton _ _, ?_⟩
    intro a ha b hb
    simp only [List.mem_singleton] at hb
    subst hb
    exact hlt a ha
  · intro m hm
    rcases List.mem_append.1 hm with hm | hm
    · exact Nat.lt_succ_of_lt (hlt m hm)
    · simp only [List.mem_singleton] at hm
      subst hm
      exact Nat.lt_succ_self _

/-- The state left by `send_message`: a valid payload appends one row with the
next AUTOINCREMENT id, an invalid one changes nothing. -/
theorem handle_send_message_fst (st : ServerState) (sid : Nat) (e : SendEvent) :
    (handle_send_message st sid e.room e.sender e.text e.now).1 =
      if sendOk e then
        { st with db := { st.db with
            messages := st.db.messages ++
              [⟨st.db.nextMsgId, e.room.getD "", e.sender.getD "", e.text.getD "", e.now, "text"⟩],
            nextMsgId := st.db.nextMsgId + 1 } }
      else st := by
  by_cases h1 : truthy e.room = true <;> by_cases h2 : truthy e.sender = true <;>
    by_cases h3 : e.text.isNone = true <;>
    simp [handle_send_message, sendOk, h1, h2, h3]

/-- Running a trace of sends preserves the id invariant and extends each room's
replayed (sender, text) sequence by exactly the successful sends addressed to
that room, in trace order. -/
theorem runSends_spec (sid : Nat) (r : String) :
    ∀ (es : List SendEvent) (st : ServerState), DBinv st.db →
      DBinv (runSends st sid es).db ∧
      (listMessages (runSends st sid es).db r).map (fun m => (m.sender, m.text))
        = (listMessages st.db r).map (fun m => (m.sender, m.text))
          ++ (sendsFor r es).map (fun e => (e.sender.getD "", e.text.getD ""))
  | [], st, h => by
    refine ⟨h, ?_⟩
    simp [runSends, sendsFor]
  | e :: es, st, h => by
    have hstep := handle_send_message_fst st sid e
    have hrun : runSends st sid (e :: es)
        = runSends (handle_send_message st sid e.room e.sender e.text e.now).1 sid es := rfl
    by_cases hok : sendOk e = true
    · rw [if_pos hok] at hstep
      have hinv1 : DBinv (handle_send_message st sid e.room e.sender e.text e.now).1.db := by
        rw [hstep]
        exact DBinv_append st.db _ _ _ _ _ h
      obtain ⟨hinv2, heq⟩ := runSends_spec sid r es _ hinv1
      rw [hrun]
      refine ⟨hinv2, ?_⟩
      rw [heq]
      rw [listMessages_eq_filter _ _ hinv1.1, listMessages_eq_filter _ _ h.1, hstep]
      by_cases hr2 : (e.room.getD "" == r) = true
      · have hs : sendsFor r (e :: es) = e :: sendsFor r es := by
          unfold sendsFor
          simp [hok, hr2]
        rw [hs]
        simp [List.filter_append, List.filter_cons, hr2]
      · have hs : sendsFor r (e :: es) = sendsFor r es := by
          unfold sendsFor
          simp [List.filter_cons, hok, hr2]
        rw [hs]
        simp [List.filter_append, List.filter_cons, hr2]
    · rw [if_neg hok] at hstep
      obtain ⟨hinv2, heq⟩ := runSends_spec sid r es
        (handle_send_message st sid e.room e.sender e.text e.now).1
        (by rw [hstep]; exact h)
      rw [hrun]
      refine ⟨hinv2, ?_⟩
      rw [heq, hstep]
      have hs : sendsFor r (e :: es) = sendsFor r es := by
        unfold sendsFor
        simp [List.filter_cons, hok]
      rw [hs]

/-- C6: starting from a well-formed database, after any trace of send_message
events the history a joining session receives for room r is listed in strictly
ascending id order, and its (sender, text) sequence extends the pre-trace
history by exactly the successful sends addressed to r in the order they were
appended; the chat_history unicast of a successful join carries exactly that
replay. -/
theorem replay_order_matches_appends (st : ServerState) (sid sid2 : Nat) (r u p : String)
    (es : List SendEvent) (h : DBinv st.db) (hr : r ≠ "") (hu : u ≠ "")
    (hok : (room_exists_and_password_ok (runSends st sid es).db r p).1 = true) :
    List.Sorted (fun a b : Message => a.id < b.id) (listMessages (runSends st sid es).db r) ∧
    (listMessages (runSends st sid es).db r).map (fun m => (m.sender, m.text))
      = (listMessages st.db r).map (fun m => (m.sender, m.text))
        ++ (sendsFor r es).map (fun e => (e.sender.getD "", e.text.getD "")) ∧
    (handle_join (runSends st sid es) sid2 (some r) (some u) (some p)).2
      = [.broadcast r (.message "System" (u ++ " joined the chat") "text" none),
         .broadcast r (.userStatus (get_online_users
            (setOnlineStatus (runSends st sid es).db u true))),
         .unicast sid2 (.chatHistory
            ((listMessages (runSends st sid es).db r).map histItem))] := by
  obtain ⟨hinv, heq⟩ := runSends_spec sid r es st h
  refine ⟨?_, heq, ?_⟩
  · rw [listMessages_eq_filter _ _ hinv.1]
    exact hinv.1.filter _
  · rw [handle_join_success (runSends st sid es) sid2 r u p hr hu hok]
    rfl

/-- Witness for C6: one room, a trace with sends to r1, to another room, and a
rejected partial send. -/
theorem replay_order_matches_appends_witness :
    DBinv (⟨⟨[], [⟨"r1", "r1", ⟨""⟩, "a", "t"⟩], [], 1⟩, [], []⟩ : ServerState).db ∧
    ("r1" : String) ≠ "" ∧ ("carol" : String) ≠ "" ∧
    (room_exists_and_password_ok
        (runSends ⟨⟨[], [⟨"r1", "r1", ⟨""⟩, "a", "t"⟩], [], 1⟩, [], []⟩ 0
          [⟨some "r1", some "alice", some "hi", "t1"⟩,
           ⟨some "r2", some "bob", some "x", "t2"⟩,
           ⟨none, some "bob", some "y", "t3"⟩,
           ⟨some "r1", some "bob", some "yo", "t4"⟩]).db "r1" "").1 = true ∧
    (List.Sorted (fun a b : Message => a.id < b.id)
        (listMessages (runSends ⟨⟨[], [⟨"r1", "r1", ⟨""⟩, "a", "t"⟩], [], 1⟩, [], []⟩ 0
          [⟨some "r1", some "alice", some "hi", "t1"⟩,
           ⟨some "r2", some "bob", some "x", "t2"⟩,
           ⟨none, some "bob", some "y", "t3"⟩,
           ⟨some "r1", some "bob", some "yo", "t4"⟩]).db "r1") ∧
      (listMessages (runSends ⟨⟨[], [⟨"r1", "r1", ⟨""⟩, "a", "t"⟩], [], 1⟩, [], []⟩ 0
          [⟨some "r1", some "alice", some "hi", "t1"⟩,
           ⟨some "r2", some "bob", some "x", "t2"⟩,
           ⟨none, some "bob", some "y", "t3"⟩,
           ⟨some "r1", some "bob", some "yo", "t4"⟩]).db "r1").map (fun m => (m.sender, m.text))
        = (listMessages (⟨⟨[], [⟨"r1", "r1", ⟨""⟩, "a", "t"⟩], [], 1⟩, [], []⟩ : ServerState).db
              "r1").map (fun m => (m.sender, m.text))
          ++ (sendsFor "r1"
              [⟨some "r1", some "alice", some "hi", "t1"⟩,
               ⟨some "r2", some "bob", some "x", "t2"⟩,
               ⟨none, some "bob", some "y", "t3"⟩,
               ⟨some "r1", some "bob", some "yo", "t4"⟩]).map
              (fun e => (e.sender.getD "", e.text.getD "")) ∧
      (handle_join (runSends ⟨⟨[], [⟨"r1", "r1", ⟨""⟩, "a", "t"⟩], [], 1⟩, [], []⟩ 0
          [⟨some "r1", some "alice", some "hi", "t1"⟩,
           ⟨some "r2", some "bob", some "x", "t2"⟩,
           ⟨none, some "bob", some "y", "t3"⟩,
           ⟨some "r1", some "bob", some "yo", "t4"⟩]) 5 (some "r1") (some "carol")
          (some "")).2
        = [.broadcast "r1" (.message "System" ("carol" ++ " joined the chat") "text" none),
           .broadcast "r1" (.userStatus (get_online_users (setOnlineStatus
              (runSends ⟨⟨[], [⟨"r1", "r1", ⟨""⟩, "a", "t"⟩], [], 1⟩, [], []⟩ 0
                [⟨some "r1", some "alice", some "hi", "t1"⟩,
                 ⟨some "r2", some "bob", some "x", "t2"⟩,
                 ⟨none, some "bob", some "y", "t3"⟩,
                 ⟨some "r1", some "bob", some "yo", "t4"⟩]).db "carol" true))),
           .unicast 5 (.chatHistory ((listMessages
              (runSends ⟨⟨[], [⟨"r1", "r1", ⟨""⟩, "a", "t"⟩], [], 1⟩, [], []⟩ 0
                [⟨some "r1", some "alice", some "hi", "t1"⟩,
                 ⟨some "r2", some "bob", some "x", "t2"⟩,
                 ⟨none, some "bob", some "y", "t3"⟩,
                 ⟨some "r1", some "bob", some "yo", "t4"⟩]).db "r1").map histItem))]) :=
  ⟨by decide, by decide, by decide, by decide,
    replay_order_matches_appends ⟨⟨[], [⟨"r1", "r1", ⟨""⟩, "a", "t"⟩], [], 1⟩, [], []⟩ 0 5
      "r1" "carol" ""
      [⟨some "r1", some "alice", some "hi", "t1"⟩,
       ⟨some "r2", some "bob", some "x", "t2"⟩,
       ⟨none, some "bob", some "y", "t3"⟩,
       ⟨some "r1", some "bob", some "yo", "t4"⟩]
      (by decide) (by decide) (by decide) (by decide)⟩

end Chast
